import Mathlib

/-!
Verification of VideoSceneDetector against its natural-language specification.

The definitions below are a shallow embedding of the Python sources:

* app/utils/upload_queue.py   (UploadQueueManager)
* app/utils/frame_watcher.py  (FrameWatcher)
* app/utils/video_processor.py (VideoProcessor.parse_ffmpeg_metadata,
  VideoProcessor._get_accurate_fps)
* app/routers/video.py        (process_video_task, send_callback)

Machine floats in the Python code only carry decimal literals and small
arithmetic here, so they are modelled by rationals; Python exceptions are
modelled with Except/Option; the concurrent queue manager is modelled as a
labelled transition system over an explicit state.
-/

namespace VideoSceneDetector

/-! ## Upload queue manager (app/utils/upload_queue.py) -/

/-- Embedding of the UploadTask dataclass (upload_queue.py lines 23-30):
frame_path, frame_name and the retry counter (timestamp omitted — no claim
mentions it). -/
structure UploadTask where
  frame_path : String
  frame_name : String
  retry_count : Nat
  deriving DecidableEq, Repr

/-- Outcome of one Google Drive API attempt inside _upload_single_frame,
as distinguished by its except-clauses (upload_queue.py lines 229-253). -/
inductive DriveAttempt where
  /-- files().create().execute() returned normally. -/
  | ok : DriveAttempt
  /-- HttpError with status 403 and rateLimitExceeded in the message. -/
  | rateLimit : DriveAttempt
  /-- any other HttpError. -/
  | httpError : DriveAttempt
  /-- ssl.SSLError. -/
  | sslError : DriveAttempt
  /-- any other exception. -/
  | otherError : DriveAttempt
  deriving DecidableEq, Repr

/-- Embedding of UploadQueueManager._upload_single_frame
(upload_queue.py lines 203-253).  The file-system and network environment is
passed in: whether os.path.exists(task.frame_path) holds, and how the Drive
call would end.  The function returns False when the file is missing and
otherwise True exactly on a normal API return; every exception branch
returns False. -/
def uploadSingleFrame (fileExists : Bool) (attempt : DriveAttempt) : Bool :=
  if !fileExists then
    false
  else
    match attempt with
    | .ok => true
    | .rateLimit => false
    | .httpError => false
    | .sslError => false
    | .otherError => false

/-- The stats dictionary of UploadQueueManager (upload_queue.py lines 44-50);
start_time is omitted (no claim mentions it). -/
structure QueueStats where
  queued : Nat
  uploaded : Nat
  failed : Nat
  retried : Nat
  deriving DecidableEq, Repr

/-- Result of the worker loop branch handling a failed upload
(upload_queue.py lines 172-188): the updated stats, the re-enqueued task
(none when the task is permanently failed), and the backoff sleep in
seconds (none when no backoff sleep happens). -/
structure FailureStepResult where
  stats : QueueStats
  requeued : Option UploadTask
  backoff : Option Nat
  deriving DecidableEq, Repr

/-- Embedding of the else-branch of the worker loop for a failed upload
(upload_queue.py lines 172-188): task.retry_count += 1; if the incremented
counter is still below max_retries, increment retried, sleep
2 ** task.retry_count (the incremented value) and re-queue; otherwise
increment failed and record the task in failed_uploads. -/
def workerFailureStep (max_retries : Nat) (task : UploadTask) (stats : QueueStats) :
    FailureStepResult :=
  let task' : UploadTask := { task with retry_count := task.retry_count + 1 }
  if task'.retry_count < max_retries then
    { stats := { stats with retried := stats.retried + 1 }
      requeued := some task'
      backoff := some (2 ^ task'.retry_count) }
  else
    { stats := { stats with failed := stats.failed + 1 }
      requeued := none
      backoff := none }

/-- Phase of the single worker thread: idle between tasks, busy with a task
taken off the queue (between queue.get and the success/failure branch), or
sleeping in the exponential-backoff branch holding the task it is about to
re-queue. -/
inductive WorkerPhase where
  | idle : WorkerPhase
  | busy : UploadTask → WorkerPhase
  | backoff : UploadTask → WorkerPhase
  deriving DecidableEq, Repr

/-- Global state of one UploadQueueManager run: the stats counters, the
FIFO queue contents, the worker phase, the is_processing_complete flag and
the permanent-failure list (frame names). -/
structure QueueState where
  stats : QueueStats
  queue : List UploadTask
  phase : WorkerPhase
  processingComplete : Bool
  failedUploads : List String
  deriving DecidableEq, Repr

/-- Initial state of a run, as built by UploadQueueManager.__init__. -/
def initQueueState : QueueState :=
  { stats := { queued := 0, uploaded := 0, failed := 0, retried := 0 }
    queue := []
    phase := .idle
    processingComplete := false
    failedUploads := [] }

/-- Interleaving semantics of one UploadQueueManager run with a single
worker thread.  addFrame and setComplete are producer-side calls
(upload_queue.py lines 86-104 and 113-116); take, the three work* steps and
requeue are the worker loop (lines 159-190), with the failure branch split
at the backoff sleep so that the state in which a failed task is held by
the sleeping worker — in neither the queue nor any counter — is visible. -/
inductive QueueStep (max_retries : Nat) : QueueState → QueueState → Prop where
  /-- add_frame: put a fresh task (retry_count 0) and increment queued. -/
  | addFrame (s : QueueState) (path name : String) :
      QueueStep max_retries s
        { s with
          queue := s.queue ++ [{ frame_path := path, frame_name := name, retry_count := 0 }]
          stats := { s.stats with queued := s.stats.queued + 1 } }
  /-- set_processing_complete. -/
  | setComplete (s : QueueState) :
      QueueStep max_retries s { s with processingComplete := true }
  /-- worker: queue.get returns the head task. -/
  | take (s : QueueState) (t : UploadTask) (rest : List UploadTask) :
      s.phase = .idle → s.queue = t :: rest →
      QueueStep max_retries s { s with phase := .busy t, queue := rest }
  /-- worker: _upload_single_frame returned True; uploaded += 1. -/
  | workSuccess (s : QueueState) (t : UploadTask) (fe : Bool) (att : DriveAttempt) :
      s.phase = .busy t → uploadSingleFrame fe att = true →
      QueueStep max_retries s
        { s with phase := .idle
                 stats := { s.stats with uploaded := s.stats.uploaded + 1 } }
  /-- worker: attempt failed with retry budget left; retried += 1 and the
  worker enters the backoff sleep holding the incremented task. -/
  | workFailRetry (s : QueueState) (t : UploadTask) (fe : Bool) (att : DriveAttempt) :
      s.phase = .busy t → uploadSingleFrame fe att = false →
      t.retry_count + 1 < max_retries →
      QueueStep max_retries s
        { s with phase := .backoff { t with retry_count := t.retry_count + 1 }
                 stats := { s.stats with retried := s.stats.retried + 1 } }
  /-- worker: attempt failed with no retry budget left; failed += 1 and the
  task is recorded in failed_uploads. -/
  | workFailPerm (s : QueueState) (t : UploadTask) (fe : Bool) (att : DriveAttempt) :
      s.phase = .busy t → uploadSingleFrame fe att = false →
      ¬ t.retry_count + 1 < max_retries →
      QueueStep max_retries s
        { s with phase := .idle
                 stats := { s.stats with failed := s.stats.failed + 1 }
                 failedUploads := s.failedUploads ++ [t.frame_name] }
  /-- worker: backoff sleep over, the task goes back on the queue. -/
  | requeue (s : QueueState) (t : UploadTask) :
      s.phase = .backoff t →
      QueueStep max_retries s { s with phase := .idle, queue := s.queue ++ [t] }

/-- Reachability from the initial state by any interleaving. -/
def QueueReachable (max_retries : Nat) (s : QueueState) : Prop :=
  Relation.ReflTransGen (QueueStep max_retries) initQueueState s

/-- The condition wait_for_completion polls before returning True
(upload_queue.py lines 123-130): the queue is empty and
is_processing_complete is set.  The 2-second settling re-check observes the
same two fields, so any state satisfying this condition that the system can
stay in across the settling sleep makes wait_for_completion return True. -/
def drainCondition (s : QueueState) : Prop :=
  s.queue = [] ∧ s.processingComplete = true

instance (s : QueueState) : Decidable (drainCondition s) := by
  unfold drainCondition; infer_instance

/-- Number of tasks currently held by the worker (in flight or in backoff). -/
def WorkerPhase.holding : WorkerPhase → Nat
  | .idle => 0
  | .busy _ => 1
  | .backoff _ => 1

/-- Conservation invariant of the queue manager: every task ever counted in
queued is accounted for exactly once — as uploaded, as permanently failed,
as waiting in the queue, or as held by the worker. -/
def queueInvariant (s : QueueState) : Prop :=
  s.stats.queued =
    s.stats.uploaded + s.stats.failed + s.queue.length + s.phase.holding

lemma queueStep_preserves_invariant {m : Nat} {s s' : QueueState}
    (h : QueueStep m s s') (hs : queueInvariant s) : queueInvariant s' := by
  unfold queueInvariant at hs ⊢
  cases h with
  | addFrame path name =>
      simp only [List.length_append, List.length_cons, List.length_nil]
      omega
  | setComplete => simpa using hs
  | take t rest hph hq =>
      simp only [hq, List.length_cons, hph, WorkerPhase.holding] at hs ⊢
      omega
  | workSuccess t fe att hph _ =>
      simp only [hph, WorkerPhase.holding] at hs ⊢
      omega
  | workFailRetry t fe att hph _ _ =>
      simp only [hph, WorkerPhase.holding] at hs ⊢
      omega
  | workFailPerm t fe att hph _ _ =>
      simp only [hph, WorkerPhase.holding] at hs ⊢
      omega
  | requeue t hph =>
      simp only [hph, WorkerPhase.holding, List.length_append, List.length_cons,
        List.length_nil] at hs ⊢
      omega

lemma reachable_invariant {m : Nat} {s : QueueState}
    (h : QueueReachable m s) : queueInvariant s := by
  induction h with
  | refl => rfl
  | tail _ hstep ih => exact queueStep_preserves_invariant hstep ih

/-- A concrete reachable state: one frame enqueued, processing marked
complete, and the worker busy with the task it just took — the queue is
empty while no terminal counter has moved. -/
def racyState : QueueState :=
  { stats := { queued := 1, uploaded := 0, failed := 0, retried := 0 }
    queue := []
    phase := .busy { frame_path := "/tmp/frames/frame_000001.jpg"
                     frame_name := "frame_000001.jpg", retry_count := 0 }
    processingComplete := true
    failedUploads := [] }

lemma queueStep_cast {m : Nat} {a b c : QueueState}
    (h : QueueStep m a b) (e : b = c) : QueueStep m a c := e ▸ h

/-- The single task of the racy run. -/
def racyTask : UploadTask :=
  { frame_path := "/tmp/frames/frame_000001.jpg"
    frame_name := "frame_000001.jpg", retry_count := 0 }

/-- State after add_frame in the racy run. -/
def racyMid1 : QueueState :=
  { stats := { queued := 1, uploaded := 0, failed := 0, retried := 0 }
    queue := [racyTask]
    phase := .idle
    processingComplete := false
    failedUploads := [] }

/-- State after set_processing_complete in the racy run. -/
def racyMid2 : QueueState :=
  { racyMid1 with processingComplete := true }

lemma racyState_reachable : QueueReachable 3 racyState := by
  have h1 : QueueStep 3 initQueueState racyMid1 :=
    queueStep_cast
      (@QueueStep.addFrame 3 initQueueState
        "/tmp/frames/frame_000001.jpg" "frame_000001.jpg") (by decide)
  have h2 : QueueStep 3 racyMid1 racyMid2 :=
    queueStep_cast (@QueueStep.setComplete 3 racyMid1) (by decide)
  have h3 : QueueStep 3 racyMid2 racyState :=
    queueStep_cast
      (@QueueStep.take 3 racyMid2 racyTask [] rfl rfl) (by decide)
  exact Relation.ReflTransGen.tail (Relation.ReflTransGen.tail
    (Relation.ReflTransGen.single h1) h2) h3

/-- State after only set_processing_complete on an empty run. -/
def emptyCompleteState : QueueState :=
  { initQueueState with processingComplete := true }

/-- C1 counterexample.  The claim states that whenever wait_for_completion
returns true, uploaded + failed = queued.  The reachable state racyState —
one frame enqueued, processing complete, and the worker busy with the task
it just took off the queue — satisfies the exact condition
wait_for_completion polls (empty queue and is_processing_complete), and the
system may remain in it across the 2-second settling sleep, yet
uploaded + failed = 0 while queued = 1. -/
theorem C1_counterexample :
    QueueReachable 3 racyState ∧ drainCondition racyState ∧
      racyState.stats.uploaded + racyState.stats.failed ≠ racyState.stats.queued :=
  ⟨racyState_reachable, by decide, by decide⟩

/-- C1 amended: in every reachable state in which the drain condition
observed by wait_for_completion holds AND the worker thread is idle (no
task in flight or in a backoff sleep), the statistics satisfy
uploaded + failed = queued: every enqueued task has reached a terminal
counter. -/
theorem C1_drain_accounting (m : Nat) (s : QueueState)
    (hreach : QueueReachable m s) (hdrain : drainCondition s)
    (hidle : s.phase = .idle) :
    s.stats.uploaded + s.stats.failed = s.stats.queued := by
  have hinv := reachable_invariant hreach
  unfold queueInvariant at hinv
  rw [hdrain.1, hidle] at hinv
  simp [WorkerPhase.holding] at hinv
  omega

/-- Witness for C1_drain_accounting: the state reached by calling
set_processing_complete on a fresh manager satisfies all hypotheses, and
the theorem applies. -/
theorem C1_drain_accounting_witness :
    emptyCompleteState.stats.uploaded + emptyCompleteState.stats.failed =
      emptyCompleteState.stats.queued :=
  C1_drain_accounting 3 emptyCompleteState
    (Relation.ReflTransGen.single
      (queueStep_cast (QueueStep.setComplete initQueueState) (by decide)))
    (by decide) rfl

/-- n consecutive failed upload attempts of one task, following the worker
loop failure branch each time the task is re-enqueued; once the task is
permanently failed the simulation is constant. -/
def simulateFailures (max_retries : Nat) : Nat → UploadTask → QueueStats →
    QueueStats × Option UploadTask
  | 0, t, st => (st, some t)
  | n + 1, t, st =>
    match simulateFailures max_retries n t st with
    | (st', some t') =>
      let r := workerFailureStep max_retries t' st'
      (r.stats, r.requeued)
    | (st', none) => (st', none)

/-- The fresh task used in the concrete retry schedules. -/
def retryTask : UploadTask :=
  { frame_path := "/tmp/frames/frame_000002.jpg"
    frame_name := "frame_000002.jpg", retry_count := 0 }

/-- C2 counterexample.  The claim states that with max_retries = 3 a task
is moved to the permanent-failure list, with failed incremented, only on
its 4th failed attempt.  In fact the 3rd consecutive failed attempt already
fails it permanently: after exactly 3 failures the task is no longer
re-enqueued and failed = 1, while after 2 failures it was still alive with
failed = 0 and retried = 2. -/
theorem C2_counterexample :
    (simulateFailures 3 3 retryTask { queued := 1, uploaded := 0, failed := 0, retried := 0 }).2
        = none ∧
    (simulateFailures 3 3 retryTask { queued := 1, uploaded := 0, failed := 0, retried := 0 }).1.failed
        = 1 ∧
    (simulateFailures 3 2 retryTask { queued := 1, uploaded := 0, failed := 0, retried := 0 }).1.failed
        = 0 ∧
    (simulateFailures 3 2 retryTask { queued := 1, uploaded := 0, failed := 0, retried := 0 }).1.retried
        = 2 := by
  decide

/-- C2 amended: a failed attempt whose incremented retry counter is still
below max_retries re-enqueues the task with a strictly increased counter,
increments retried (not failed), and sleeps 2 ^ new_retry_count seconds;
once the incremented counter reaches max_retries the task is permanently
failed and failed (not retried) is incremented — so with max_retries = 3 a
fresh task is permanently failed on its 3rd consecutive failed attempt,
after exactly 2 retries. -/
theorem C2_retry_schedule (max_retries : Nat) (t : UploadTask) (st : QueueStats) :
    (t.retry_count + 1 < max_retries →
      (workerFailureStep max_retries t st).requeued
          = some { t with retry_count := t.retry_count + 1 } ∧
      (workerFailureStep max_retries t st).stats.retried = st.retried + 1 ∧
      (workerFailureStep max_retries t st).stats.failed = st.failed ∧
      (workerFailureStep max_retries t st).backoff = some (2 ^ (t.retry_count + 1))) ∧
    (max_retries ≤ t.retry_count + 1 →
      (workerFailureStep max_retries t st).requeued = none ∧
      (workerFailureStep max_retries t st).stats.failed = st.failed + 1 ∧
      (workerFailureStep max_retries t st).stats.retried = st.retried ∧
      (workerFailureStep max_retries t st).backoff = none) ∧
    (t.retry_count = 0 →
      (simulateFailures 3 3 t st).2 = none ∧
      (simulateFailures 3 3 t st).1.failed = st.failed + 1 ∧
      (simulateFailures 3 3 t st).1.retried = st.retried + 2 ∧
      (simulateFailures 3 2 t st).2 = some { t with retry_count := 2 }) := by
  refine ⟨fun hlt => ?_, fun hge => ?_, fun h0 => ?_⟩
  · simp [workerFailureStep, hlt]
  · simp [workerFailureStep, Nat.not_lt.mpr hge]
  · simp [simulateFailures, workerFailureStep, h0]

/-- Witness for C2_retry_schedule: instantiated at max_retries = 3 with a
fresh concrete task, discharging each hypothesis. -/
theorem C2_retry_schedule_witness :
    (workerFailureStep 3 retryTask { queued := 1, uploaded := 0, failed := 0, retried := 0 }).requeued
        = some { retryTask with retry_count := 1 } ∧
    (simulateFailures 3 3 retryTask { queued := 1, uploaded := 0, failed := 0, retried := 0 }).2
        = none := by
  have h := C2_retry_schedule 3 retryTask
    { queued := 1, uploaded := 0, failed := 0, retried := 0 }
  exact ⟨(h.1 (by decide)).1, (h.2.2 (by decide)).1⟩

/-- The missing-file task used in the C3 scenario. -/
def missingTask : UploadTask :=
  { frame_path := "/tmp/frames/removed_frame.jpg"
    frame_name := "removed_frame.jpg", retry_count := 0 }

/-- C3 counterexample.  The claim states that a task whose source file no
longer exists fails immediately and permanently: not re-enqueued, with
failed (not retried) incremented on the first attempt.  In fact
_upload_single_frame merely returns False for a missing file, and the
worker handles that False through the same retry branch as any transient
failure: on the first attempt (with max_retries = 3) the task IS
re-enqueued with retry_count 1, retried = 1 and failed = 0. -/
theorem C3_counterexample :
    uploadSingleFrame false .ok = false ∧
    (workerFailureStep 3 missingTask { queued := 1, uploaded := 0, failed := 0, retried := 0 }).requeued
        = some { missingTask with retry_count := 1 } ∧
    (workerFailureStep 3 missingTask { queued := 1, uploaded := 0, failed := 0, retried := 0 }).stats.failed
        = 0 ∧
    (workerFailureStep 3 missingTask { queued := 1, uploaded := 0, failed := 0, retried := 0 }).stats.retried
        = 1 := by
  decide

/-- C3 amended: a task whose source file no longer exists fails its upload
attempt (for every possible Drive outcome the attempt reports failure),
but the failure is handled by the generic retry path, indistinguishable
from a transient error: while the incremented retry counter is below
max_retries the task is re-enqueued and retried is incremented; failed is
incremented only once the counter reaches max_retries — with max_retries =
3, on the 3rd attempt, not the 1st. -/
theorem C3_missing_file_retries (att : DriveAttempt) (max_retries : Nat)
    (t : UploadTask) (st : QueueStats) :
    uploadSingleFrame false att = false ∧
    (t.retry_count + 1 < max_retries →
      (workerFailureStep max_retries t st).requeued
          = some { t with retry_count := t.retry_count + 1 } ∧
      (workerFailureStep max_retries t st).stats.retried = st.retried + 1 ∧
      (workerFailureStep max_retries t st).stats.failed = st.failed) ∧
    (max_retries ≤ t.retry_count + 1 →
      (workerFailureStep max_retries t st).requeued = none ∧
      (workerFailureStep max_retries t st).stats.failed = st.failed + 1) := by
  refine ⟨by cases att <;> rfl, fun hlt => ?_, fun hge => ?_⟩
  · simp [workerFailureStep, hlt]
  · simp [workerFailureStep, Nat.not_lt.mpr hge]

/-- Witness for C3_missing_file_retries at a concrete missing-file task,
discharging each hypothesis. -/
theorem C3_missing_file_retries_witness :
    uploadSingleFrame false .ok = false ∧
    (workerFailureStep 3 missingTask { queued := 1, uploaded := 0, failed := 0, retried := 0 }).requeued
        = some { missingTask with retry_count := 1 } := by
  have h := C3_missing_file_retries .ok 3 missingTask
    { queued := 1, uploaded := 0, failed := 0, retried := 0 }
  exact ⟨h.1, (h.2.1 (by decide)).1⟩

/-! ## Frame watcher (app/utils/frame_watcher.py) -/

/-- Environment model of one file for _is_file_ready: whether the file
exists at a given time, its size at a given time, and the modification
time read at a given time.  Time is rational seconds. -/
structure FileModel where
  existsAt : ℚ → Bool
  sizeAt : ℚ → Nat
  mtimeAt : ℚ → ℚ

/-- Embedding of FrameWatcher._is_file_ready (frame_watcher.py lines
101-126) started at time t: return False unless the file exists with
non-zero size; read size1; sleep stability_time; return False unless the
file still exists; read size2, the mtime and the current clock (which is
now t + stability_time, the sleep having elapsed before time.time() is
called); accept iff size1 = size2, size1 > 0 and
current_time - mtime > stability_threshold.  stability_time and
stability_threshold are read from the same environment variable
FRAME_WATCHER_STABILITY_TIME (default 0.2) but kept as two parameters,
mirroring the two os.getenv reads. -/
def isFileReady (stability_time stability_threshold : ℚ)
    (f : FileModel) (t : ℚ) : Bool :=
  if !(f.existsAt t) || f.sizeAt t == 0 then
    false
  else
    let size1 := f.sizeAt t
    let t' := t + stability_time
    if !(f.existsAt t') then
      false
    else
      let size2 := f.sizeAt t'
      let mtime := f.mtimeAt t'
      let current_time := t'
      decide (size1 = size2) && decide (0 < size1) &&
        decide (stability_threshold < current_time - mtime)

/-- A file of size bytes written in one atomic operation at time tw: it
does not exist before tw, and from tw on it has its full size and
modification time tw. -/
def atomicFile (bytes : Nat) (tw : ℚ) : FileModel :=
  { existsAt := fun t => decide (tw ≤ t)
    sizeAt := fun t => if tw ≤ t then bytes else 0
    mtimeAt := fun _ => tw }

/-- Embedding of the loop body of FrameWatcher._scan_directory
(frame_watcher.py lines 78-85) over the sorted glob result: walk the file
list in order; a path already in processed_files is skipped; otherwise, if
the readiness check passes, the path is added to processed_files and
appended to new_files (the emission list handed to the callback in order,
lines 88-96).  Readiness is supplied per file as the Bool the
_is_file_ready call returns during this scan. -/
def scanFiles : List String → List (String × Bool) → List String × List String
  | processed, [] => (processed, [])
  | processed, (path, ready) :: rest =>
    if path ∈ processed then
      scanFiles processed rest
    else if ready then
      let r := scanFiles (processed ++ [path]) rest
      (r.1, path :: r.2)
    else
      scanFiles processed rest

/-- A watch session (FrameWatcher._watch_loop, lines 54-67): a sequence of
directory scans against the persistent processed_files set, concatenating
the callback emissions of each scan in order. -/
def watchSession : List String → List (List (String × Bool)) →
    List String × List String
  | processed, [] => (processed, [])
  | processed, scan :: scans =>
    let r := scanFiles processed scan
    let rs := watchSession r.1 scans
    (rs.1, r.2 ++ rs.2)

lemma scanFiles_processed_mono (files : List (String × Bool)) :
    ∀ processed p, p ∈ processed → p ∈ (scanFiles processed files).1 := by
  induction files with
  | nil => intro processed p hp; simpa [scanFiles] using hp
  | cons fb rest ih =>
    intro processed p hp
    obtain ⟨path, ready⟩ := fb
    by_cases hmem : path ∈ processed
    · simpa [scanFiles, hmem] using ih processed p hp
    · by_cases hr : ready
      · have : p ∈ processed ++ [path] := List.mem_append_left _ hp
        simpa [scanFiles, hmem, hr] using ih (processed ++ [path]) p this
      · simpa [scanFiles, hmem, hr] using ih processed p hp

lemma scanFiles_not_emit_processed (files : List (String × Bool)) :
    ∀ processed p, p ∈ processed → p ∉ (scanFiles processed files).2 := by
  induction files with
  | nil => intro processed p _ h; simp [scanFiles] at h
  | cons fb rest ih =>
    intro processed p hp
    obtain ⟨path, ready⟩ := fb
    by_cases hmem : path ∈ processed
    · simpa [scanFiles, hmem] using ih processed p hp
    · by_cases hr : ready
      · simp only [scanFiles, hmem, hr, if_true, if_false, List.mem_cons]
        rintro (rfl | hmem2)
        · exact hmem hp
        · exact ih (processed ++ [path]) p (List.mem_append_left _ hp) hmem2
      · simpa [scanFiles, hmem, hr] using ih processed p hp

lemma scanFiles_emit_mem_processed (files : List (String × Bool)) :
    ∀ processed p, p ∈ (scanFiles processed files).2 →
      p ∈ (scanFiles processed files).1 := by
  induction files with
  | nil => intro processed p h; simp [scanFiles] at h
  | cons fb rest ih =>
    intro processed p hp
    obtain ⟨path, ready⟩ := fb
    by_cases hmem : path ∈ processed
    · simp only [scanFiles, hmem, if_true] at hp ⊢
      exact ih processed p hp
    · by_cases hr : ready
      · simp only [scanFiles, hmem, hr, if_true, if_false, List.mem_cons] at hp ⊢
        rcases hp with rfl | hp
        · exact scanFiles_processed_mono rest (processed ++ [p]) p
            (List.mem_append_right _ (List.mem_singleton_self p))
        · exact ih _ p hp
      · simp only [scanFiles, hmem, hr, if_false] at hp ⊢
        exact ih processed p hp

lemma scanFiles_emit_count (files : List (String × Bool)) :
    ∀ processed p, (scanFiles processed files).2.count p ≤ 1 ∧
      (p ∈ processed → (scanFiles processed files).2.count p = 0) := by
  induction files with
  | nil => intro processed p; simp [scanFiles]
  | cons fb rest ih =>
    intro processed p
    obtain ⟨path, ready⟩ := fb
    by_cases hmem : path ∈ processed
    · simpa [scanFiles, hmem] using ih processed p
    · by_cases hr : ready
      · simp only [scanFiles, hmem, hr, if_true, if_false]
        by_cases hpp : p = path
        · subst hpp
          have h0 : (scanFiles (processed ++ [p]) rest).2.count p = 0 :=
            (ih (processed ++ [p]) p).2
              (List.mem_append_right _ (List.mem_singleton_self p))
          constructor
          · simp [List.count_cons, h0]
          · intro hp; exact absurd hp hmem
        · have := ih (processed ++ [path]) p
          constructor
          · simpa [List.count_cons, hpp] using
              (this.1)
          · intro hp
            have := this.2 (List.mem_append_left _ hp)
            simpa [List.count_cons, hpp] using this
      · simpa [scanFiles, hmem, hr] using ih processed p

lemma watchSession_count (scans : List (List (String × Bool))) :
    ∀ processed p, (watchSession processed scans).2.count p ≤ 1 ∧
      (p ∈ processed → (watchSession processed scans).2.count p = 0) := by
  induction scans with
  | nil => intro processed p; simp [watchSession]
  | cons scan rest ih =>
    intro processed p
    have hscan := scanFiles_emit_count scan processed p
    have hrest := ih (scanFiles processed scan).1 p
    constructor
    · simp only [watchSession, List.count_append]
      by_cases hem : p ∈ (scanFiles processed scan).2
      · have h1 : (scanFiles processed scan).2.count p ≤ 1 := hscan.1
        have h2 : (watchSession (scanFiles processed scan).1 rest).2.count p = 0 :=
          hrest.2 (scanFiles_emit_mem_processed scan processed p hem)
        omega
      · have h1 : (scanFiles processed scan).2.count p = 0 :=
          List.count_eq_zero.mpr hem
        have h2 := hrest.1
        omega
    · intro hp
      simp only [watchSession, List.count_append]
      have h1 : (scanFiles processed scan).2.count p = 0 := hscan.2 hp
      have h2 : (watchSession (scanFiles processed scan).1 rest).2.count p = 0 :=
        hrest.2 (scanFiles_processed_mono scan processed p hp)
      omega

/-- With the default 0.2 s setting for both the stability sleep and the
stability threshold, a file written in one atomic operation at time tw is
ready at a poll starting at time t exactly when it is non-empty and the
poll starts strictly after the write: the 0.2 s sleep elapses before the
clock is read, so the observed age tw to t + 0.2 always clears the 0.2 s
threshold as soon as t is past tw. -/
lemma atomicFile_ready_iff (bytes : Nat) (tw t : ℚ) :
    isFileReady (1/5) (1/5) (atomicFile bytes tw) t = true ↔
      0 < bytes ∧ tw < t := by
  unfold isFileReady atomicFile
  by_cases h1 : tw ≤ t
  · have h2 : tw ≤ t + 1/5 := by linarith
    by_cases hb : bytes = 0
    · have h3 : ¬ 0 < bytes := by omega
      simp [h1, h2, hb, h3]
    · have h3 : 0 < bytes := Nat.pos_of_ne_zero hb
      simp only [h1, h2, hb, h3, decide_True, Bool.not_true, Bool.false_or,
        if_pos, if_true, beq_iff_eq, if_neg, not_false_iff, decide_eq_true_eq,
        Bool.and_eq_true, true_and, and_true, iff_true]
      simp [h1, h2, hb, h3]
      constructor
      · intro h4; linarith
      · intro h4; linarith
  · have h2 : ¬ tw < t := fun hlt => h1 (le_of_lt hlt)
    simp [h1, h2]

/-- C4 counterexample.  With the default stability setting (0.2 s used both
as the sleep and as the threshold), a 1-byte file written in a single
atomic operation 50 ms (1/20 s) before the first poll IS accepted by
_is_file_ready on that first poll — the 0.2 s stability sleep runs before
time.time() is read, so the observed age is 0.25 s > 0.2 s — and the scan
therefore emits it to the callback immediately, contrary to the claim that
it is not emitted until the next poll. -/
theorem C4_counterexample :
    isFileReady (1/5) (1/5) (atomicFile 1 0) (1/20) = true ∧
    (scanFiles []
        [("/w/frame_000001.jpg", isFileReady (1/5) (1/5) (atomicFile 1 0) (1/20))]).2
      = ["/w/frame_000001.jpg"] := by
  have h : isFileReady (1/5) (1/5) (atomicFile 1 0) (1/20) = true :=
    (atomicFile_ready_iff 1 0 (1/20)).mpr (by norm_num)
  refine ⟨h, ?_⟩
  rw [h]
  simp [scanFiles]

/-- C4 amended: a file is delivered only if it exists, has non-zero size,
still exists after the stability sleep, has equal sizes across the two
reads, and has a modification time more than the stability threshold older
than the clock read AFTER the sleep; consequently a file written in one
atomic operation is ready on the first poll that starts any positive
amount of time after the write (with sleep = threshold = 0.2 s), rather
than only once its age at poll start exceeds the threshold — in particular
an atomic file 50 ms old at poll start is emitted on that same poll. -/
theorem C4_stability_conditions :
    (∀ (st th : ℚ) (f : FileModel) (t : ℚ), isFileReady st th f t = true →
      f.existsAt t = true ∧ f.sizeAt t ≠ 0 ∧ f.existsAt (t + st) = true ∧
      f.sizeAt t = f.sizeAt (t + st) ∧
      th < (t + st) - f.mtimeAt (t + st)) ∧
    (∀ (bytes : Nat) (tw t : ℚ),
      isFileReady (1/5) (1/5) (atomicFile bytes tw) t = true ↔
        0 < bytes ∧ tw < t) := by
  constructor
  · intro st th f t h
    unfold isFileReady at h
    cases hE : f.existsAt t with
    | false => rw [hE] at h; simp at h
    | true =>
      rw [hE] at h
      by_cases hs : f.sizeAt t = 0
      · simp [hs] at h
      · have hguard : (!true || (f.sizeAt t == 0)) = false := by simp [hs]
        rw [hguard] at h
        simp only [Bool.false_eq_true, if_false] at h
        cases hE2 : f.existsAt (t + st) with
        | false => rw [hE2] at h; simp at h
        | true =>
          rw [hE2] at h
          simp only [Bool.not_true, Bool.false_eq_true, if_false,
            Bool.and_eq_true, decide_eq_true_eq] at h
          exact ⟨rfl, hs, rfl, h.1.1, h.2⟩
  · exact atomicFile_ready_iff

/-- C5 (confirmed): within one watch session started with an empty
processed_files set, every file path is handed to the callback at most
once, across any sequence of directory scans with any readiness outcomes.
-/
theorem C5_emit_at_most_once (scans : List (List (String × Bool))) (p : String) :
    (watchSession [] scans).2.count p ≤ 1 :=
  (watchSession_count scans [] p).1

/-- Witness for C4_stability_conditions: both parts applied at the
concrete 50 ms-old atomic file, discharging the readiness hypothesis by
the second part of the theorem itself. -/
theorem C4_stability_conditions_witness :
    ((atomicFile 1 0).existsAt (1/20) = true ∧ (atomicFile 1 0).sizeAt (1/20) ≠ 0 ∧
      (atomicFile 1 0).existsAt (1/20 + 1/5) = true ∧
      (atomicFile 1 0).sizeAt (1/20) = (atomicFile 1 0).sizeAt (1/20 + 1/5) ∧
      (1/5 : ℚ) < (1/20 + 1/5) - (atomicFile 1 0).mtimeAt (1/20 + 1/5)) ∧
    (0 < 1 ∧ (0:ℚ) < 1/20) :=
  ⟨C4_stability_conditions.1 (1/5) (1/5) (atomicFile 1 0) (1/20)
      ((C4_stability_conditions.2 1 0 (1/20)).mpr (by norm_num)),
   (C4_stability_conditions.2 1 0 (1/20)).mp
      ((C4_stability_conditions.2 1 0 (1/20)).mpr (by norm_num))⟩

/-! ## Router background task and webhook dispatch (app/routers/video.py) -/

/-- The fields of drive_upload_result that the verification and webhook
logic reads (video.py lines 324-343 and 438-444): frames_uploaded,
total_frames, frames_failed (Python ints) and the success flag. -/
structure DriveUploadResult where
  success : Bool
  frames_uploaded : Int
  total_frames : Int
  frames_failed : Int
  deriving DecidableEq, Repr

/-- Embedding of the upload-verification step of process_video_task
(video.py lines 324-343): if frames_uploaded < total_frames -
frames_failed the success flag of drive_upload_result is forced to False,
otherwise it is forced to True. -/
def verifyUploadCompleteness (r : DriveUploadResult) : DriveUploadResult :=
  if r.frames_uploaded < r.total_frames - r.frames_failed then
    { r with success := false }
  else
    { r with success := true }

/-- Embedding of the upload_verification_passed condition of
process_video_task (video.py lines 439-444): the result dict is present
(always a non-empty dict at this point, hence truthy and not modelled),
its success flag is set, frames_uploaded > 0 and frames_uploaded >=
total_frames - frames_failed. -/
def uploadVerificationPassed (r : DriveUploadResult) : Bool :=
  r.success && decide (0 < r.frames_uploaded) &&
    decide (r.total_frames - r.frames_failed ≤ r.frames_uploaded)

/-- Whether process_video_task sends the frame-processor ("ready") webhook
(video.py lines 446-477): the send_callback to FRAME_PROCESSOR_WEBHOOK_URL
is executed exactly in the upload_verification_passed branch, evaluated on
the result that has passed the verification step of lines 324-343. -/
def frameProcessorWebhookSent (r : DriveUploadResult) : Bool :=
  uploadVerificationPassed (verifyUploadCompleteness r)

/-- C6 (confirmed): the "ready" frame-processor notification is sent if
and only if uploaded > 0 and uploaded >= total - failed (the success flag
forced by the verification step coincides with the second inequality), and
in particular it is sent for uploaded=8, total=10, failed=2 and withheld
for uploaded=7, total=10, failed=2 — whatever success flag the streaming
result carried before verification. -/
theorem C6_ready_webhook_iff :
    (∀ r : DriveUploadResult, frameProcessorWebhookSent r = true ↔
      0 < r.frames_uploaded ∧
        r.total_frames - r.frames_failed ≤ r.frames_uploaded) ∧
    (∀ b : Bool, frameProcessorWebhookSent ⟨b, 8, 10, 2⟩ = true) ∧
    (∀ b : Bool, frameProcessorWebhookSent ⟨b, 7, 10, 2⟩ = false) := by
  refine ⟨fun r => ?_, fun b => by cases b <;> decide, fun b => by cases b <;> decide⟩
  unfold frameProcessorWebhookSent uploadVerificationPassed verifyUploadCompleteness
  by_cases h : r.frames_uploaded < r.total_frames - r.frames_failed <;>
    simp [h] <;> omega

/-- Bool test that the first list is a prefix of the second. -/
def charsPrefix : List Char → List Char → Bool
  | [], _ => true
  | _ :: _, [] => false
  | a :: as, b :: bs => (a == b) && charsPrefix as bs

/-- Bool test that needle occurs as a contiguous substring of hay,
modelling the Python expression needle in hay on strings. -/
def charsContains (hay needle : List Char) : Bool :=
  charsPrefix needle hay ||
    match hay with
    | [] => false
    | _ :: rest => charsContains rest needle

/-- Python substring membership needle in hay. -/
def strContains (hay needle : String) : Bool :=
  charsContains hay.toList needle.toList

/-- Default value of FRAME_ANALYSIS_WEBHOOK_URL (video.py lines 406 and
511). -/
def frameAnalysisUrl : String :=
  "http://localhost:5678/webhook/9268d2b1-e4de-421e-9685-4c5aa5e79289"

/-- Default value of FRAME_PROCESSOR_WEBHOOK_URL (video.py lines 448 and
512). -/
def frameProcessorUrl : String :=
  "http://localhost:5678/webhook/c9af1341-63b6-43fa-a5fc-c7fefc6ab732"

/-- Outcome of the requests.post call inside send_callback: an HTTP
response with a status code, or a raised exception. -/
inductive HttpOutcome where
  | response (status : Int)
  | exception
  deriving DecidableEq, Repr

/-- Result of one send_callback call: whether an actual HTTP delivery
attempt was made (requests.post reached), the boolean return value, and
the webhook_sent_tracker contents afterwards (the tracker maps process ids
to True, so it is modelled as the list of recorded ids). -/
structure SendResult where
  attempted : Bool
  returned : Bool
  tracker : List String
  deriving DecidableEq, Repr

/-- Python truthiness of data.get("process_id"): present and non-empty. -/
def pyTruthy : Option String → Bool
  | none => false
  | some s => !(s == "")

/-- Whether process_id is a key of webhook_sent_tracker. -/
def pidInTracker (tracker : List String) : Option String → Bool
  | none => false
  | some p => decide (p ∈ tracker)

/-- Embedding of send_callback (video.py lines 501-555) against the
default fixed endpoint URLs.  Empty callback_url: no attempt, returns
False.  If a truthy process_id is already tracked and the URL is neither
fixed endpoint (substring check), the send is skipped as a duplicate and
returns True without attempting.  Otherwise requests.post is attempted:
a 2xx response records the process id (when truthy and the URL is not a
fixed endpoint) and returns True; a non-2xx response or an exception
leaves the tracker unchanged and returns False. -/
def sendCallback (tracker : List String) (callback_url : String)
    (process_id : Option String) (outcome : HttpOutcome) : SendResult :=
  if callback_url == "" then
    { attempted := false, returned := false, tracker := tracker }
  else
    let is_airtable_webhook := strContains callback_url frameAnalysisUrl
    let is_frame_processor_webhook := strContains callback_url frameProcessorUrl
    if pyTruthy process_id && pidInTracker tracker process_id &&
        !is_airtable_webhook && !is_frame_processor_webhook then
      { attempted := false, returned := true, tracker := tracker }
    else
      match outcome with
      | .response status =>
        if 200 ≤ status ∧ status < 300 then
          { attempted := true, returned := true
            tracker :=
              if pyTruthy process_id && !is_airtable_webhook &&
                  !is_frame_processor_webhook then
                match process_id with
                | some p => tracker ++ [p]
                | none => tracker
              else tracker }
        else
          { attempted := true, returned := false, tracker := tracker }
      | .exception =>
        { attempted := true, returned := false, tracker := tracker }

lemma charsPrefix_self (l : List Char) : charsPrefix l l = true := by
  induction l with
  | nil => rfl
  | cons a as ih => simp [charsPrefix, ih]

lemma strContains_self (s : String) : strContains s s = true := by
  unfold strContains
  cases h : s.toList with
  | nil => simp [charsContains, charsPrefix]
  | cons c rest => simp [charsContains, h ▸ charsPrefix_self s.toList]

/-- C7 (confirmed): with a truthy process id not yet tracked, a first
send to a non-exempt caller-supplied URL that succeeds (2xx) performs a
real delivery attempt and records the id, and a second send of the same id
to the same URL is skipped as already-sent (no attempt, returns True);
sends to the two fixed configured endpoints always perform a real attempt,
whatever the tracker already contains, so two notifications with the same
id to the two fixed endpoints are one real attempt each, never suppressed
against each other. -/
theorem C7_webhook_dedup :
    (∀ (tracker : List String) (url p : String) (c : Int) (out2 : HttpOutcome),
      url ≠ "" → p ≠ "" →
      strContains url frameAnalysisUrl = false →
      strContains url frameProcessorUrl = false →
      p ∉ tracker →
      200 ≤ c → c < 300 →
      (sendCallback tracker url (some p) (.response c)).attempted = true ∧
      (sendCallback tracker url (some p) (.response c)).tracker = tracker ++ [p] ∧
      (sendCallback (sendCallback tracker url (some p) (.response c)).tracker
          url (some p) out2).attempted = false ∧
      (sendCallback (sendCallback tracker url (some p) (.response c)).tracker
          url (some p) out2).returned = true) ∧
    (∀ (tracker : List String) (pid : Option String) (out : HttpOutcome),
      (sendCallback tracker frameAnalysisUrl pid out).attempted = true ∧
      (sendCallback tracker frameProcessorUrl pid out).attempted = true) := by
  constructor
  · intro tracker url p c out2 hurl hp hfa hfp hmem hc1 hc2
    have hfirst :
        sendCallback tracker url (some p) (.response c) =
          { attempted := true, returned := true, tracker := tracker ++ [p] } := by
      unfold sendCallback
      simp [hurl, hfa, hfp, hmem, pyTruthy, pidInTracker, hp, hc1, hc2]
    refine ⟨by rw [hfirst], by rw [hfirst], ?_, ?_⟩
    · rw [hfirst]
      unfold sendCallback
      simp [hurl, hfa, hfp, pyTruthy, pidInTracker, hp]
    · rw [hfirst]
      unfold sendCallback
      simp [hurl, hfa, hfp, pyTruthy, pidInTracker, hp]
  · intro tracker pid out
    have ha1 : strContains frameAnalysisUrl frameAnalysisUrl = true :=
      strContains_self _
    have hp1 : strContains frameProcessorUrl frameProcessorUrl = true :=
      strContains_self _
    have ha2 : (frameAnalysisUrl == "") = false := by decide
    have hp2 : (frameProcessorUrl == "") = false := by decide
    constructor
    · unfold sendCallback
      cases out with
      | response c =>
        by_cases hc : 200 ≤ c ∧ c < 300 <;> simp [ha1, ha2, hc]
      | exception => simp [ha1, ha2]
    · unfold sendCallback
      cases out with
      | response c =>
        by_cases hc : 200 ≤ c ∧ c < 300 <;> simp [hp1, hp2, hc]
      | exception => simp [hp1, hp2]

/-- Witness for C7_webhook_dedup: a concrete non-exempt callback URL and
process id, with a 200 first response, and the two fixed endpoints. -/
theorem C7_webhook_dedup_witness :
    ((sendCallback [] "http://n8n.example.com/webhook/cb1" (some "1747000000_abc123")
        (.response 200)).attempted = true ∧
      (sendCallback [] "http://n8n.example.com/webhook/cb1" (some "1747000000_abc123")
        (.response 200)).tracker = [] ++ ["1747000000_abc123"] ∧
      (sendCallback
          (sendCallback [] "http://n8n.example.com/webhook/cb1"
            (some "1747000000_abc123") (.response 200)).tracker
          "http://n8n.example.com/webhook/cb1" (some "1747000000_abc123")
          (.response 200)).attempted = false ∧
      (sendCallback
          (sendCallback [] "http://n8n.example.com/webhook/cb1"
            (some "1747000000_abc123") (.response 200)).tracker
          "http://n8n.example.com/webhook/cb1" (some "1747000000_abc123")
          (.response 200)).returned = true) ∧
    ((sendCallback ["1747000000_abc123"] frameAnalysisUrl (some "1747000000_abc123")
        (.response 200)).attempted = true ∧
      (sendCallback ["1747000000_abc123"] frameProcessorUrl (some "1747000000_abc123")
        (.response 200)).attempted = true) :=
  ⟨C7_webhook_dedup.1 [] "http://n8n.example.com/webhook/cb1" "1747000000_abc123"
      200 (.response 200) (by decide) (by decide) (by decide) (by decide)
      (by decide) (by decide) (by decide),
   C7_webhook_dedup.2 ["1747000000_abc123"] (some "1747000000_abc123")
      (.response 200)⟩

/-- C10 (confirmed): send_callback records a process id in the tracker
only when a real delivery attempt to a non-exempt URL returns a 2xx
status; a non-2xx response or an exception leaves the tracker unchanged
(and returns False), so a subsequent send of the same id to a non-exempt
URL performs another real delivery attempt instead of being skipped. -/
theorem C10_tracker_only_on_success :
    (∀ (tracker : List String) (url : String) (pid : Option String) (c : Int),
      c < 200 ∨ 300 ≤ c →
      (sendCallback tracker url pid (.response c)).tracker = tracker) ∧
    (∀ (tracker : List String) (url : String) (pid : Option String),
      (sendCallback tracker url pid .exception).tracker = tracker) ∧
    (∀ (tracker : List String) (url p : String) (c : Int) (out2 : HttpOutcome),
      url ≠ "" → p ∉ tracker →
      c < 200 ∨ 300 ≤ c →
      (sendCallback (sendCallback tracker url (some p) (.response c)).tracker
          url (some p) out2).attempted = true) := by
  refine ⟨fun tracker url pid c hc => ?_, fun tracker url pid => ?_,
    fun tracker url p c out2 hurl hmem hc => ?_⟩
  · have hc' : ¬ (200 ≤ c ∧ c < 300) := by omega
    unfold sendCallback
    by_cases hu : url == ""
    · simp [hu]
    · by_cases hskip : (pyTruthy pid && pidInTracker tracker pid &&
          !strContains url frameAnalysisUrl && !strContains url frameProcessorUrl) = true
      · simp [hu, hskip]
      · simp [hu, hskip, hc']
  · unfold sendCallback
    by_cases hu : url == ""
    · simp [hu]
    · by_cases hskip : (pyTruthy pid && pidInTracker tracker pid &&
          !strContains url frameAnalysisUrl && !strContains url frameProcessorUrl) = true
      · simp [hu, hskip]
      · simp [hu, hskip]
  · have hc' : ¬ (200 ≤ c ∧ c < 300) := by omega
    have hfirst :
        (sendCallback tracker url (some p) (.response c)).tracker = tracker := by
      unfold sendCallback
      by_cases hskip : (pyTruthy (some p) && pidInTracker tracker (some p) &&
          !strContains url frameAnalysisUrl && !strContains url frameProcessorUrl) = true
      · simp [hurl, hskip]
      · simp [hurl, hskip, hc']
    rw [hfirst]
    unfold sendCallback
    have hnot : pidInTracker tracker (some p) = false := by
      simp [pidInTracker, hmem]
    cases out2 with
    | response c2 =>
      by_cases hc2 : 200 ≤ c2 ∧ c2 < 300 <;> simp [hurl, hnot, hc2]
    | exception => simp [hurl, hnot]

/-- Witness for C10_tracker_only_on_success: all three parts applied at a
concrete failed send (status 500) followed by a retry. -/
theorem C10_tracker_only_on_success_witness :
    (sendCallback [] "http://n8n.example.com/webhook/cb1" (some "1747000000_abc123")
        (.response 500)).tracker = [] ∧
    (sendCallback [] "http://n8n.example.com/webhook/cb1" (some "1747000000_abc123")
        .exception).tracker = [] ∧
    (sendCallback
        (sendCallback [] "http://n8n.example.com/webhook/cb1"
          (some "1747000000_abc123") (.response 500)).tracker
        "http://n8n.example.com/webhook/cb1" (some "1747000000_abc123")
        (.response 200)).attempted = true :=
  ⟨C10_tracker_only_on_success.1 [] "http://n8n.example.com/webhook/cb1"
      (some "1747000000_abc123") 500 (by decide),
   C10_tracker_only_on_success.2.1 [] "http://n8n.example.com/webhook/cb1"
      (some "1747000000_abc123"),
   C10_tracker_only_on_success.2.2 [] "http://n8n.example.com/webhook/cb1"
      "1747000000_abc123" 500 (.response 200) (by decide) (by decide) (by decide)⟩

/-! ## Frame-rate resolver (app/utils/video_processor.py, _get_accurate_fps) -/

/-- Numeric value of a digit character. -/
def digitVal (c : Char) : Nat := c.toNat - 48

/-- Value of a digit string read left to right. -/
def digitsVal (s : List Char) : Nat :=
  s.foldl (fun n c => 10 * n + digitVal c) 0

/-- Split a character list at every occurrence of sep, modelling Python
str.split(sep) for a one-character separator. -/
def splitOnChar (sep : Char) : List Char → List (List Char)
  | [] => [[]]
  | c :: rest =>
    let r := splitOnChar sep rest
    if c == sep then [] :: r
    else
      match r with
      | [] => [[c]]
      | h :: t => (c :: h) :: t

/-- Split a character list at every dot. -/
def splitOnDot (s : List Char) : List (List Char) := splitOnChar '.' s

/-- Model of Python float(s) on the non-negative decimal literals the
ffprobe/mediainfo JSON fields and the showinfo regex captures carry
(digits with at most one dot, no sign or exponent): none models a raised
ValueError.  A lone dot, more than one dot, or any non-digit character
raises; "5", "61.5", "1." and ".5" parse to their decimal values. -/
def pyFloat (s : List Char) : Option ℚ :=
  match splitOnDot s with
  | [intp] =>
    if intp ≠ [] ∧ intp.all Char.isDigit then some (digitsVal intp) else none
  | [intp, fracp] =>
    if (intp ≠ [] ∨ fracp ≠ []) ∧ intp.all Char.isDigit ∧ fracp.all Char.isDigit then
      some ((digitsVal intp : ℚ) + (digitsVal fracp : ℚ) / 10 ^ fracp.length)
    else none
  | _ => none

/-- Python float() applied to a string. -/
def pyFloatStr (s : String) : Option ℚ := pyFloat s.toList

/-- Outcome of the ffprobe subprocess in _get_accurate_fps (video_processor.py
lines 146-183): failure covers a raised exception, a non-zero return code,
unparsable JSON or an empty streams list; success carries the two optional
rate fields of the first stream. -/
inductive FFprobeOutcome where
  | failure : FFprobeOutcome
  | success (avg_frame_rate : Option String) (r_frame_rate : Option String) :
      FFprobeOutcome

/-- One track of the mediainfo JSON (video_processor.py lines 195-211). -/
structure MediaInfoTrack where
  type : String
  frame_rate : Option String
  frame_rate_original : Option String

/-- Outcome of the mediainfo subprocess (video_processor.py lines 186-214). -/
inductive MediaInfoOutcome where
  | failure : MediaInfoOutcome
  | success (tracks : List MediaInfoTrack) : MediaInfoOutcome

/-- One ffprobe rate-field candidate (video_processor.py lines 163-180):
skip an absent field or the literal "0/0"; when the string has a slash,
split it and divide the two float values — float() of a malformed part,
unpacking of more than two parts, and division by zero all raise (error,
caught by the surrounding try as a whole-probe failure); a value of
exactly 60.0 is rejected (no candidate); a string without a slash falls
through with no candidate. -/
def tryFractionRate (field : Option String) : Except Unit (Option ℚ) :=
  match field with
  | none => .ok none
  | some s =>
    if s == "0/0" then .ok none
    else if strContains s "/" then
      match splitOnChar '/' s.toList with
      | [num, den] =>
        match pyFloat num, pyFloat den with
        | some n, some d =>
          if d == 0 then .error ()
          else if n / d ≠ 60 then .ok (some (n / d)) else .ok none
        | _, _ => .error ()
      | _ => .error ()
    else .ok none

/-- One mediainfo rate-field candidate (video_processor.py lines 198-210):
skip an absent field; float() of an unparsable string raises; exactly 60.0
is rejected. -/
def tryPlainRate (field : Option String) : Except Unit (Option ℚ) :=
  match field with
  | none => .ok none
  | some s =>
    match pyFloatStr s with
    | some v => if v ≠ 60 then .ok (some v) else .ok none
    | none => .error ()

/-- The ffprobe method of _get_accurate_fps (lines 146-183): try
avg_frame_rate, then r_frame_rate; any raised exception is caught and
logged, leaving no candidate. -/
def runFfprobe : FFprobeOutcome → Option ℚ
  | .failure => none
  | .success avg r =>
    match (tryFractionRate avg).bind
        (fun a =>
          match a with
          | some v => .ok (some v)
          | none => tryFractionRate r) with
    | .ok res => res
    | .error _ => none

/-- The track loop of the mediainfo method (lines 195-211): the first
track whose type is Video is examined — frame_rate, then
frame_rate_original — and the loop breaks after it whether or not a
candidate was produced; other tracks are skipped. -/
def runMediaInfoTracks : List MediaInfoTrack → Except Unit (Option ℚ)
  | [] => .ok none
  | t :: rest =>
    if t.type == "Video" then
      (tryPlainRate t.frame_rate).bind
        (fun a =>
          match a with
          | some v => .ok (some v)
          | none => tryPlainRate t.frame_rate_original)
    else runMediaInfoTracks rest

/-- The mediainfo method of _get_accurate_fps (lines 186-214): any raised
exception is caught and logged, leaving no candidate. -/
def runMediaInfo : MediaInfoOutcome → Option ℚ
  | .failure => none
  | .success tracks =>
    match runMediaInfoTracks tracks with
    | .ok res => res
    | .error _ => none

/-- Embedding of VideoProcessor._get_accurate_fps (video_processor.py
lines 130-218): a falsy video path returns the default 30.0 at once;
otherwise the ffprobe candidates are tried, then the mediainfo candidates,
and if none is produced the final fallback 30.0 is returned.  The function
is total: every probe failure path ends in a candidate-less branch, never
in a propagated exception. -/
def getAccurateFps (video_path : Option String) (ffp : FFprobeOutcome)
    (mi : MediaInfoOutcome) : ℚ :=
  if !pyTruthy video_path then 30
  else
    match runFfprobe ffp with
    | some v => v
    | none =>
      match runMediaInfo mi with
      | some v => v
      | none => 30

lemma tryFractionRate_ne_sixty (field : Option String) :
    tryFractionRate field ≠ .ok (some 60) := by
  unfold tryFractionRate
  cases field with
  | none => simp
  | some s =>
    intro h
    iterate 8 (all_goals (try split at h))
    all_goals simp_all

lemma tryPlainRate_ne_sixty (field : Option String) :
    tryPlainRate field ≠ .ok (some 60) := by
  unfold tryPlainRate
  cases field with
  | none => simp
  | some s =>
    intro h
    iterate 8 (all_goals (try split at h))
    all_goals simp_all

/-- C9 (confirmed): the fps resolver never propagates an error — a falsy
video path and every probe failure produce no candidate — a candidate of
exactly 60.0 is never returned by any field (both probes reject it), the
candidates are consulted in the order avg_frame_rate, r_frame_rate,
then the mediainfo fields of the first Video track (frame_rate before
frame_rate_original), a raised error inside a probe discards that whole
probe, and when no candidate survives the result is exactly 30.0. -/
theorem C9_fps_resolution :
    (∀ ffp mi, getAccurateFps none ffp mi = 30) ∧
    (runFfprobe .failure = none ∧ runMediaInfo .failure = none) ∧
    (∀ field, tryFractionRate field ≠ .ok (some 60) ∧
      tryPlainRate field ≠ .ok (some 60)) ∧
    (∀ path avg r mi v, pyTruthy path = true →
      tryFractionRate avg = .ok (some v) →
      getAccurateFps path (.success avg r) mi = v) ∧
    (∀ path avg r mi v, pyTruthy path = true →
      tryFractionRate avg = .ok none →
      tryFractionRate r = .ok (some v) →
      getAccurateFps path (.success avg r) mi = v) ∧
    (∀ avg r e, tryFractionRate avg = .error e →
      runFfprobe (.success avg r) = none) ∧
    (∀ t rest v, t.type = "Video" →
      tryPlainRate t.frame_rate = .ok (some v) →
      runMediaInfoTracks (t :: rest) = .ok (some v)) ∧
    (∀ t rest v, t.type = "Video" →
      tryPlainRate t.frame_rate = .ok none →
      tryPlainRate t.frame_rate_original = .ok (some v) →
      runMediaInfoTracks (t :: rest) = .ok (some v)) ∧
    (∀ path ffp tracks v, pyTruthy path = true →
      runFfprobe ffp = none →
      runMediaInfoTracks tracks = .ok (some v) →
      getAccurateFps path ffp (.success tracks) = v) ∧
    (∀ path ffp mi, pyTruthy path = true →
      runFfprobe ffp = none → runMediaInfo mi = none →
      getAccurateFps path ffp mi = 30) := by
  refine ⟨fun ffp mi => rfl, ⟨rfl, rfl⟩,
    fun field => ⟨tryFractionRate_ne_sixty field, tryPlainRate_ne_sixty field⟩,
    ?_, ?_, ?_, ?_, ?_, ?_, ?_⟩
  · intro path avg r mi v hpath havg
    unfold getAccurateFps runFfprobe
    simp [hpath, havg, Except.bind]
  · intro path avg r mi v hpath havg hr
    unfold getAccurateFps runFfprobe
    simp [hpath, havg, hr, Except.bind]
  · intro avg r e havg
    unfold runFfprobe
    simp [havg, Except.bind]
  · intro t rest v htype hfr
    unfold runMediaInfoTracks
    simp [htype, hfr, Except.bind]
  · intro t rest v htype hfr hfro
    unfold runMediaInfoTracks
    simp [htype, hfr, hfro, Except.bind]
  · intro path ffp tracks v hpath hffp htracks
    unfold getAccurateFps runMediaInfo
    simp [hpath, hffp, htracks]
  · intro path ffp mi hpath hffp hmi
    unfold getAccurateFps
    simp [hpath, hffp, hmi]

/-- Witness for C9_fps_resolution: the hypothesis-bearing parts applied at
concrete probe outcomes — an NTSC-rate avg_frame_rate candidate, a 60 fps
avg candidate rejected in favour of r_frame_rate, a zero-denominator
candidate discarding the ffprobe probe, a mediainfo Video track consulted
field by field, and the all-failed fallback. -/
theorem C9_fps_resolution_witness :
    getAccurateFps (some "/videos/clip.mp4")
        (.success (some "24000/1001") (some "30/1")) .failure = 24000/1001 ∧
    getAccurateFps (some "/videos/clip.mp4")
        (.success (some "60/1") (some "30000/1001")) .failure = 30000/1001 ∧
    runFfprobe (.success (some "5/0") (some "30/1")) = none ∧
    runMediaInfoTracks
        [{ type := "Video", frame_rate := some "29.97"
           frame_rate_original := some "23.976" }] = .ok (some (2997/100)) ∧
    runMediaInfoTracks
        [{ type := "Video", frame_rate := some "60.0"
           frame_rate_original := some "23.976" }] = .ok (some (23976/1000)) ∧
    getAccurateFps (some "/videos/clip.mp4") .failure
        (.success [{ type := "Video", frame_rate := some "29.97"
                     frame_rate_original := some "23.976" }]) = 2997/100 ∧
    getAccurateFps (some "/videos/clip.mp4") .failure .failure = 30 := by
  have havg : tryFractionRate (some "24000/1001") = .ok (some (24000/1001 : ℚ)) := by
    simp +decide [tryFractionRate, strContains, charsContains, charsPrefix,
      pyFloat, splitOnChar, splitOnDot, digitsVal, digitVal]
    norm_num
  have h60 : tryFractionRate (some "60/1") = .ok none := by
    simp +decide [tryFractionRate, strContains, charsContains, charsPrefix,
      pyFloat, splitOnChar, splitOnDot, digitsVal, digitVal]
  have hr : tryFractionRate (some "30000/1001") = .ok (some (30000/1001 : ℚ)) := by
    simp +decide [tryFractionRate, strContains, charsContains, charsPrefix,
      pyFloat, splitOnChar, splitOnDot, digitsVal, digitVal]
    norm_num
  have hzero : tryFractionRate (some "5/0") = .error () := by
    simp +decide [tryFractionRate, strContains, charsContains, charsPrefix,
      pyFloat, splitOnChar, splitOnDot, digitsVal, digitVal]
  have hfr : tryPlainRate (some "29.97") = .ok (some (2997/100 : ℚ)) := by
    simp +decide [tryPlainRate, pyFloat, pyFloatStr, splitOnChar, splitOnDot,
      digitsVal, digitVal]
    norm_num
  have hfr60 : tryPlainRate (some "60.0") = .ok none := by
    simp +decide [tryPlainRate, pyFloat, pyFloatStr, splitOnChar, splitOnDot,
      digitsVal, digitVal]
  have hfro : tryPlainRate (some "23.976") = .ok (some (23976/1000 : ℚ)) := by
    simp +decide [tryPlainRate, pyFloat, pyFloatStr, splitOnChar, splitOnDot,
      digitsVal, digitVal]
    norm_num
  have hpath : pyTruthy (some "/videos/clip.mp4") = true := by decide
  refine ⟨?_, ?_, ?_, ?_, ?_, ?_, ?_⟩
  · exact C9_fps_resolution.2.2.2.1 _ _ (some "30/1") .failure _ hpath havg
  · exact C9_fps_resolution.2.2.2.2.1 _ _ _ .failure _ hpath h60 hr
  · exact C9_fps_resolution.2.2.2.2.2.1 _ (some "30/1") () hzero
  · exact C9_fps_resolution.2.2.2.2.2.2.1 _ [] _ rfl hfr
  · exact C9_fps_resolution.2.2.2.2.2.2.2.1 _ [] _ rfl hfr60 hfro
  · exact C9_fps_resolution.2.2.2.2.2.2.2.2.1 _ .failure _ _ hpath rfl
      (C9_fps_resolution.2.2.2.2.2.2.1 _ [] _ rfl hfr)
  · exact C9_fps_resolution.2.2.2.2.2.2.2.2.2 _ .failure .failure hpath rfl rfl

/-! ## Showinfo metadata parser (app/utils/video_processor.py,
parse_ffmpeg_metadata)

The Python function scans stderr lines for Parsed_showinfo output and
applies re.search with the fixed pattern

  n:\s*(\d+)\s.*pts:\s*(\d+)\s.*pts_time:\s*([\d.]+)\s.*

The matcher below implements exactly this pattern with Python re
semantics: leftmost starting position, greedy quantifiers with
backtracking, and a dot that does not cross a newline.  The sub-patterns
\s*(\d+)\s and \s*([\d.]+)\s are implemented by maximal munch, which
agrees with backtracking here because the character classes of every
adjacent pair of quantifiers are disjoint (a space is not a digit or dot,
and the mandatory trailing space cannot be produced by shrinking the
greedy digit run).  Character classes are ASCII, as in the showinfo
output. -/

/-- Python \s on the ASCII range: space, tab, newline, carriage return,
vertical tab, form feed. -/
def isPySpace (c : Char) : Bool :=
  c == ' ' || c == '\t' || c == '\n' || c == '\r' ||
    c == Char.ofNat 11 || c == Char.ofNat 12

/-- The class [\d.]. -/
def isDigitDot (c : Char) : Bool := c.isDigit || c == '.'

/-- Match a literal, returning the rest of the input. -/
def matchLit : List Char → List Char → Option (List Char)
  | [], s => some s
  | _ :: _, [] => none
  | l :: ls, c :: cs => if l == c then matchLit ls cs else none

/-- Match \s*(\d+)\s by maximal munch, returning the digit capture and the
rest after the mandatory trailing whitespace character. -/
def matchWsNumWs (s : List Char) : Option (List Char × List Char) :=
  let s1 := s.dropWhile isPySpace
  let digits := s1.takeWhile Char.isDigit
  match digits, s1.drop digits.length with
  | [], _ => none
  | _ :: _, c :: cs => if isPySpace c then some (digits, cs) else none
  | _ :: _, [] => none

/-- Match \s*([\d.]+)\s by maximal munch. -/
def matchWsNumDotWs (s : List Char) : Option (List Char × List Char) :=
  let s1 := s.dropWhile isPySpace
  let capture := s1.takeWhile isDigitDot
  match capture, s1.drop capture.length with
  | [], _ => none
  | _ :: _, c :: cs => if isPySpace c then some (capture, cs) else none
  | _ :: _, [] => none

/-- Greedy .* before a continuation: try the continuation at the latest
split point first, never consuming a newline. -/
def tryLongest {α : Type} (k : List Char → Option α) : List Char → Option α
  | [] => k []
  | c :: cs =>
    if c == '\n' then k (c :: cs)
    else
      match tryLongest k cs with
      | some r => some r
      | none => k (c :: cs)

/-- The full pattern applied at one starting position, returning the three
captures (frame number digits, pts digits, pts_time characters).  The
trailing .* of the pattern always matches and is dropped. -/
def matchShowinfoAt (s : List Char) : Option (List Char × List Char × List Char) :=
  (matchLit "n:".toList s).bind fun s1 =>
  (matchWsNumWs s1).bind fun g1s2 =>
  tryLongest (fun s3 =>
    (matchLit "pts:".toList s3).bind fun s4 =>
    (matchWsNumWs s4).bind fun g2s5 =>
    tryLongest (fun s6 =>
      (matchLit "pts_time:".toList s6).bind fun s7 =>
      (matchWsNumDotWs s7).bind fun g3s8 =>
      some (g1s2.1, g2s5.1, g3s8.1)) g2s5.2) g1s2.2

/-- re.search: try each starting position from the left. -/
def searchShowinfo (s : List Char) : Option (List Char × List Char × List Char) :=
  match matchShowinfoAt s with
  | some r => some r
  | none =>
    match s with
    | [] => none
    | _ :: cs => searchShowinfo cs

/-- The suffix of hay after the first occurrence of needle, none when
needle does not occur — line.split(needle, 1)[1] guarded by containment. -/
def afterFirst (needle : List Char) : List Char → Option (List Char)
  | [] => if charsPrefix needle [] then some [] else none
  | c :: rest =>
    if charsPrefix needle (c :: rest) then some ((c :: rest).drop needle.length)
    else afterFirst needle rest

/-- The debug-prefix strip of parse_ffmpeg_metadata (video_processor.py
lines 97-100): when "FFmpeg: " occurs in the line, keep what follows its
first occurrence. -/
def stripDebugPrefix (line : List Char) : List Char :=
  match afterFirst "FFmpeg: ".toList line with
  | some r => r
  | none => line

/-- One parsed scene record (the dict built at video_processor.py lines
117-123). -/
structure SceneFrameRecord where
  frame_number : ℤ
  pts : ℤ
  timestamp : ℚ
  formatted_time : String
  fps : ℚ
  deriving DecidableEq, Repr

/-- Python float modulo a - b*floor(a/b) (sign of the divisor), used for
timestamp % 3600, % 60 and % 1. -/
def pyMod (a b : ℚ) : ℚ := a - b * ⌊a / b⌋

/-- Python int() on a float: truncation toward zero. -/
def pyInt (q : ℚ) : ℤ := if 0 ≤ q then ⌊q⌋ else -⌊-q⌋

/-- Python f"{n:02d}". -/
def pad2 (n : ℤ) : String :=
  if 0 ≤ n ∧ n < 10 then "0" ++ toString n else toString n

/-- The HH:MM:SS:FF formatting of video_processor.py lines 108-115:
hours and minutes by floor division, seconds and the in-second frame count
by int() truncation, the last from (timestamp % 1) * fps. -/
def formatTimestamp (fps ts : ℚ) : String :=
  let hours := ⌊ts / 3600⌋
  let minutes := ⌊pyMod ts 3600 / 60⌋
  let seconds := pyInt (pyMod ts 60)
  let frame_in_second := pyInt (pyMod ts 1 * fps)
  pad2 hours ++ ":" ++ pad2 minutes ++ ":" ++ pad2 seconds ++ ":" ++
    pad2 frame_in_second

/-- Processing of one stderr line (the loop body, video_processor.py lines
95-126): none when the line lacks the Parsed_showinfo marker or the
pattern does not match (the line is skipped silently); some (.ok r) when
it matches and float(pts_time) succeeds; some (.error ()) when it matches
but float(pts_time) raises ValueError (a capture such as "..", which
[\d.]+ admits). -/
def parseShowinfoLine (fps : ℚ) (line : List Char) :
    Option (Except Unit SceneFrameRecord) :=
  if charsContains line "Parsed_showinfo".toList then
    match searchShowinfo (stripDebugPrefix line) with
    | some caps =>
      match pyFloat caps.2.2 with
      | some ts =>
        some (.ok
          { frame_number := (digitsVal caps.1 : ℤ) + 1
            pts := (digitsVal caps.2.1 : ℤ)
            timestamp := ts
            formatted_time := formatTimestamp fps ts
            fps := fps })
      | none => some (.error ())
    | none => none
  else none

/-- The line loop of parse_ffmpeg_metadata: records are appended in line
order; a ValueError propagates out of the whole call. -/
def parseLinesAux (fps : ℚ) : List (List Char) → Except Unit (List SceneFrameRecord)
  | [] => .ok []
  | l :: ls =>
    match parseShowinfoLine fps l with
    | some (.error e) => .error e
    | some (.ok r) => (parseLinesAux fps ls).map (fun rs => r :: rs)
    | none => parseLinesAux fps ls

/-- Embedding of VideoProcessor.parse_ffmpeg_metadata (video_processor.py
lines 84-128), parametrised by the fps already resolved by
_get_accurate_fps: split the diagnostic text on newlines and run the
line loop. -/
def parseFfmpegMetadata (fps : ℚ) (stderr_output : String) :
    Except Unit (List SceneFrameRecord) :=
  parseLinesAux fps (splitOnChar '\n' stderr_output.toList)

deriving instance DecidableEq for Except

/-- A representative showinfo diagnostic line: frame index 4, pts 61500,
pts_time 61.5. -/
def exampleShowinfoLine : String :=
  "[Parsed_showinfo_0 @ 0x55aa] n:   4 pts:  61500 pts_time:61.5    pos:  1234 fmt:yuvj420p"

/-- The record the example line must produce at fps 30: 1-based frame 5,
timestamp 61.5 s (= 123/2), formatted 00:01:01:15. -/
def exampleRecord : SceneFrameRecord :=
  { frame_number := 5, pts := 61500, timestamp := 123/2
    formatted_time := "00:01:01:15", fps := 30 }

/-- A line that carries the marker and matches the pattern, but whose
pts_time capture ".." (admitted by [\d.]+) makes float() raise. -/
def badShowinfoLine : String :=
  "[Parsed_showinfo_0 @ 0x1] n: 1 pts: 2 pts_time: .. x"

lemma exampleShowinfoLine_parses :
    parseShowinfoLine 30 exampleShowinfoLine.toList = some (.ok exampleRecord) := by
  have hmarker :
      charsContains exampleShowinfoLine.toList "Parsed_showinfo".toList = true := by
    decide
  have hsearch : searchShowinfo (stripDebugPrefix exampleShowinfoLine.toList) =
      some (['4'], ['6','1','5','0','0'], ['6','1','.','5']) := by decide
  have hfloat : pyFloat ['6','1','.','5'] = some (123/2 : ℚ) := by
    simp +decide [pyFloat, splitOnChar, splitOnDot, digitsVal, digitVal]
    norm_num
  have hfmt : formatTimestamp 30 (123/2) = "00:01:01:15" := by
    have h1 : (⌊(123/2 : ℚ) / 3600⌋ : ℤ) = 0 := by
      rw [Int.floor_eq_iff] <;> norm_num
    have h2 : pyMod (123/2 : ℚ) 3600 = 123/2 := by
      unfold pyMod; rw [h1]; norm_num
    have h3 : (⌊(123/2 : ℚ) / 60⌋ : ℤ) = 1 := by
      rw [Int.floor_eq_iff] <;> norm_num
    have h4 : pyMod (123/2 : ℚ) 60 = 3/2 := by
      unfold pyMod; rw [h3]; norm_num
    have h5 : (⌊(123/2 : ℚ) / 1⌋ : ℤ) = 61 := by
      rw [Int.floor_eq_iff] <;> norm_num
    have h6 : pyMod (123/2 : ℚ) 1 = 1/2 := by
      unfold pyMod; rw [h5]; norm_num
    have h7 : pyInt (3/2 : ℚ) = 1 := by
      unfold pyInt
      rw [if_pos (by norm_num), Int.floor_eq_iff] <;> norm_num
    have h8 : pyInt ((1/2 : ℚ) * 30) = 15 := by
      unfold pyInt
      rw [if_pos (by norm_num), Int.floor_eq_iff] <;> norm_num
    unfold formatTimestamp
    rw [h2, h4, h6, h1, h3, h7, h8]
    decide
  unfold parseShowinfoLine
  rw [hmarker, if_pos rfl]
  rw [hsearch]
  simp only []
  rw [hfloat]
  simp only [hfmt]
  have hd1 : digitsVal ['4'] = 4 := by decide
  have hd2 : digitsVal ['6','1','5','0','0'] = 61500 := by decide
  rw [hd1, hd2]
  unfold exampleRecord
  norm_num

/-- C8 counterexample.  The claim states that every line other than those
matching the pattern yields no record and no error, and each matching
line yields exactly one record.  The line badShowinfoLine carries the
marker and matches the pattern (the [\d.]+ capture is ".."), yet the call
raises ValueError from float("..") instead of producing a record. -/
theorem C8_counterexample :
    charsContains badShowinfoLine.toList "Parsed_showinfo".toList = true ∧
    (searchShowinfo (stripDebugPrefix badShowinfoLine.toList)).isSome = true ∧
    parseFfmpegMetadata 30 badShowinfoLine = .error () := by
  refine ⟨by decide, by decide, by decide⟩

/-- C8 amended: a line without the Parsed_showinfo marker, or whose
stripped text the pattern does not match, contributes no record and no
error; a matching line whose pts_time capture parses as a float
contributes exactly one record, in line order; a matching line whose
capture is not a valid float literal propagates a ValueError out of the
call; and the example line with frame index 4, pts 61500 and timestamp
61.5 at fps 30 yields exactly the record frame_number=5, pts=61500,
timestamp=61.5, formatted_time="00:01:01:15". -/
theorem C8_metadata_parsing :
    (∀ (fps : ℚ) (line : List Char),
      charsContains line "Parsed_showinfo".toList = false →
      parseShowinfoLine fps line = none) ∧
    (∀ (fps : ℚ) (line : List Char),
      searchShowinfo (stripDebugPrefix line) = none →
      parseShowinfoLine fps line = none) ∧
    (∀ (fps : ℚ) (l : List Char) (ls : List (List Char)),
      parseShowinfoLine fps l = none →
      parseLinesAux fps (l :: ls) = parseLinesAux fps ls) ∧
    (∀ (fps : ℚ) (l : List Char) (ls : List (List Char)) (r : SceneFrameRecord),
      parseShowinfoLine fps l = some (.ok r) →
      parseLinesAux fps (l :: ls) =
        (parseLinesAux fps ls).map (fun rs => r :: rs)) ∧
    (∀ (fps : ℚ) (l : List Char) (ls : List (List Char)),
      parseShowinfoLine fps l = some (.error ()) →
      parseLinesAux fps (l :: ls) = .error ()) ∧
    parseFfmpegMetadata 30 exampleShowinfoLine = .ok [exampleRecord] := by
  refine ⟨?_, ?_, ?_, ?_, ?_, ?_⟩
  · intro fps line h
    unfold parseShowinfoLine
    rw [h]
    simp
  · intro fps line h
    unfold parseShowinfoLine
    by_cases hm : charsContains line "Parsed_showinfo".toList = true
    · rw [if_pos hm, h]
    · rw [if_neg hm]
  · intro fps l ls h
    rw [parseLinesAux, h]
  · intro fps l ls r h
    rw [parseLinesAux, h]
  · intro fps l ls h
    rw [parseLinesAux, h]
  · have hsplit : splitOnChar (Char.ofNat 10) exampleShowinfoLine.toList =
        [exampleShowinfoLine.toList] := by decide
    unfold parseFfmpegMetadata
    rw [show ('\n') = Char.ofNat 10 from rfl, hsplit]
    unfold parseLinesAux
    rw [exampleShowinfoLine_parses]
    rfl

/-- Witness for C8_metadata_parsing: the hypothesis-bearing parts applied
at concrete lines — an unrelated diagnostic line (no marker), a marker
line the pattern does not match, and the example line prepended to an
empty tail. -/
theorem C8_metadata_parsing_witness :
    parseShowinfoLine 30 "frame=  100 fps= 25 q=3.0 size=    512kB".toList = none ∧
    parseShowinfoLine 30 "[Parsed_showinfo_0 @ 0x1] config in/out".toList = none ∧
    parseLinesAux 30 ["frame=  100 fps= 25 q=3.0 size=    512kB".toList] =
      parseLinesAux 30 [] ∧
    parseLinesAux 30 [exampleShowinfoLine.toList] =
      (parseLinesAux 30 []).map (fun rs => exampleRecord :: rs) ∧
    parseLinesAux 30 [badShowinfoLine.toList] = .error () :=
  ⟨C8_metadata_parsing.1 30 _ (by decide),
   C8_metadata_parsing.2.1 30 _ (by decide),
   C8_metadata_parsing.2.2.1 30 _ [] (C8_metadata_parsing.1 30 _ (by decide)),
   C8_metadata_parsing.2.2.2.1 30 _ [] exampleRecord exampleShowinfoLine_parses,
   C8_metadata_parsing.2.2.2.2.1 30 _ [] (by decide)⟩
